import Mathlib

/-!
# Jiguang SDK: callback server, push identifiers, schedule query result

The first and largest part is the JSMS callback server
(`api/jsms/callback/server.go`); two shorter parts follow for
`api/jpush/push/v3_get_cid.go` and `api/jpush/schedule/v3_get_schedule.go`.
Definitions of all three parts come first, their theorems after.

## The JSMS callback server

A shallow embedding of the callback server of the Jiguang SDK: construction
from an ordered list of options (`NewServer`), the run flag and its three
accessors (`hasStarted`, `start`, `stop`), request hand-over (`Handle`),
start-up (`Run`) and the signal-driven shutdown (`autoStop`).

Conventions of the embedding.

* A Go method with a pointer receiver becomes a function that takes the
  server value and returns the new one.
* Calls that leave the program (logger, `net`, `net/http`, `os`) are recorded
  as `Event`s, in program order; what the outside world answers (the error of
  `net.Listen`, of `Shutdown`, of `Close`, which case a `select` takes) is an
  explicit environment argument.
* `sync.RWMutex`: `hasStarted`, `start` and `stop` hold the lock for their
  whole body, so each is one atomic step on the `isRunning` field; the lock
  itself carries no further state and is not a field of the model.
* `*http.Server`: `NewServer` always allocates it and nothing reassigns the
  pointer, so the two fields the package reads (`Addr`, `Handler`) are kept by
  value.
* Declarations of the package that live outside `server.go` (the constants
  `defaultAddr`, `defaultPath`, the four flag masks, the package logger and the
  body of `defaultHandler.Callback`) are the fields of `Pkg`; every theorem
  holds for all their values.
-/

namespace callback

/-! ## Data model -/

/-- Go `error` values, identified by their message (`errors.New msg`). -/
structure Error where
  msg : String
deriving DecidableEq, Repr

/-- The sentinel `http.ErrServerClosed`. -/
def ErrServerClosed : Error := ⟨"http: Server closed"⟩

/-- A `jiguang.Logger` implementation, identified by a tag. -/
structure Logger where
  id : Nat
deriving DecidableEq, Repr

/-- Log levels used by `server.go`. -/
inductive Level
  | info
  | warn
  | error
deriving DecidableEq, Repr

/-- The four callback kinds: SMS_REPLY, SMS_REPORT, SMS_TEMPLATE, SMS_SIGN. -/
inductive Kind
  | reply
  | report
  | template
  | sign
deriving DecidableEq, Repr

/-- The struct `loggingDataProcessor{logger}`. -/
structure loggingDataProcessor where
  logger : Logger
deriving DecidableEq, Repr

/-- A value of one of the four processor interfaces: either the conversion
`loggingReplyDataProcessor(p)` (resp. report, template, sign) of a
`loggingDataProcessor`, or an implementation supplied by the caller. -/
inductive Processor
  | logging (k : Kind) (p : loggingDataProcessor)
  | custom (id : Nat)
deriving DecidableEq, Repr

/-- The struct `defaultHandler` as `NewServer` fills it. A slot is `none` when
the interface value is nil. -/
structure defaultHandler where
  appKey : String
  masterSecret : String
  reply : Option Processor
  report : Option Processor
  template : Option Processor
  sign : Option Processor
deriving DecidableEq, Repr

/-- A non-nil `http.Handler`: one supplied by the caller, or
`http.HandlerFunc(h.Callback)` for a `defaultHandler` value `h`. -/
inductive Handler
  | custom (id : Nat)
  | callback (h : defaultHandler)
deriving DecidableEq, Repr

/-- The part of an `*http.Request` that routing looks at, and its body. -/
structure Request where
  path : String
  body : String
deriving DecidableEq, Repr

/-- The signals `autoStop` subscribes to. -/
inductive Signal
  | SIGINT
  | SIGTERM
deriving DecidableEq, Repr

/-- Go's `syscall.Signal.String()` for the two signals. -/
def Signal.String : Signal → String
  | .SIGINT => "interrupt"
  | .SIGTERM => "terminated"

/-- Calls that leave the program, in the order the code makes them. -/
inductive Event
  /-- A call of `logger.Info/Infof/Warnf/Error/Errorf` with its arguments. -/
  | log (logger : Logger) (level : Level) (format : String) (args : List String)
  /-- The call `net.Listen("tcp", addr)`. -/
  | listen (addr : String)
  /-- The call `srv.server.Serve(ln)`; `h` is the handler it serves with. -/
  | serve (h : Handler)
  /-- The statement `go srv.autoStop()`. -/
  | goAutoStop
  /-- The call `signal.Notify(stopCh, SIGINT, SIGTERM)`. -/
  | notify
  /-- The call `srv.server.Shutdown(ctx)`, `ctx` timing out after `grace` seconds. -/
  | shutdown (grace : Nat)
  /-- The call `srv.server.Close()`. -/
  | close
  /-- The call `os.Exit(code)`. -/
  | exit (code : Int)
  /-- The call `h.ServeHTTP(w, r)`. -/
  | serveHTTP (h : Handler) (r : Request)
  /-- A processor of kind `k` is handed the data decoded from `r`. -/
  | process (k : Kind) (p : Processor) (r : Request)
deriving DecidableEq, Repr

/-- The struct `config` that the options write to, with the fields `NewServer`
reads. `handler = none` is the nil interface; `flag` is the bit set of the
processor kinds an option has set. -/
structure config where
  addr : String
  path : String
  logger : Logger
  flag : Nat
  reply : Option Processor
  report : Option Processor
  template : Option Processor
  sign : Option Processor
  handler : Option Handler
deriving DecidableEq, Repr

/-- A non-nil `ConfigOption`: its method `apply(*config) error`, as the
configuration it leaves behind and the error it returns (`none` is nil). -/
abbrev ConfigOption := config → config × Option Error

/-- Package-level declarations of `callback` that `server.go` uses and does not
declare. -/
structure Pkg where
  defaultAddr : String
  defaultPath : String
  DefaultJSmsLogger : Logger
  flagReply : Nat
  flagReport : Nat
  flagTemplate : Nat
  flagSign : Nat
  /-- What `defaultHandler.Callback` does with a request. -/
  Callback : defaultHandler → Request → List Event

/-- The fields of `http.Server` that the package sets and reads. -/
structure HttpServer where
  Addr : String
  Handler : Handler
deriving DecidableEq, Repr

/-- The struct `Server` (without the mutex). -/
structure Server where
  server : HttpServer
  path : String
  isRunning : Bool
  logger : Logger
deriving DecidableEq, Repr

/-! ## `net/http` as far as the server uses it -/

/-- An `http.ServeMux`: its registered patterns with their handlers. -/
abbrev ServeMux := List (String × Handler)

/-- The call `http.NewServeMux()`. -/
def NewServeMux : ServeMux := []

/-- The method `(*ServeMux).Handle`: registers the pattern, and panics (`none`)
on a pattern the library rejects (`accepts pattern = false`; the empty pattern
is one) or one that is already registered. -/
def ServeMux.Handle (accepts : String → Bool) (mux : ServeMux) (pattern : String)
    (h : Handler) : Option ServeMux :=
  if accepts pattern && !(mux.any (fun e => e.1 == pattern)) then
    some (mux ++ [(pattern, h)])
  else
    none

/-- The method `ServeHTTP` of a handler: the call itself, followed, for the
default dispatcher, by what `Callback` does. The body of a handler of the
caller is outside the program. -/
def ServeHTTP (pkg : Pkg) (h : Handler) (r : Request) : List Event :=
  match h with
  | .custom id => [Event.serveHTTP (.custom id) r]
  | .callback dh => Event.serveHTTP (.callback dh) r :: pkg.Callback dh r

/-- What a serving `http.Server` does with an incoming request: it calls
`ServeHTTP` of its `Handler` field. -/
def HttpServer.dispatch (pkg : Pkg) (hs : HttpServer) (r : Request) : List Event :=
  ServeHTTP pkg hs.Handler r

/-! ## `NewServer` -/

/-- The loop `for _, opt := range opts` of `NewServer`: the configuration after
the loop, the number of `apply` calls made, and the error that ended the loop
(`none` when every option returned nil). -/
def applyOptions : List ConfigOption → config → config × Nat × Option Error
  | [], c => (c, 0, none)
  | opt :: rest, c =>
    match opt c with
    | (c1, some err) => (c1, 1, some err)
    | (c1, none) =>
      let r := applyOptions rest c1
      (r.1, r.2.1 + 1, r.2.2)

/-- The configuration `NewServer` starts from. -/
def initialConfig (pkg : Pkg) : config :=
  { addr := pkg.defaultAddr
    path := pkg.defaultPath
    logger := pkg.DefaultJSmsLogger
    flag := 0
    reply := none
    report := none
    template := none
    sign := none
    handler := none }

/-- Lines 60 to 72 of `NewServer`: every kind whose flag bit is clear gets the
logging processor over the configured logger. -/
def resolveProcessors (pkg : Pkg) (c : config) : config :=
  let p : loggingDataProcessor := { logger := c.logger }
  let c := if c.flag &&& pkg.flagReply = 0 then { c with reply := some (.logging .reply p) } else c
  let c := if c.flag &&& pkg.flagReport = 0 then { c with report := some (.logging .report p) } else c
  let c := if c.flag &&& pkg.flagTemplate = 0 then { c with template := some (.logging .template p) } else c
  let c := if c.flag &&& pkg.flagSign = 0 then { c with sign := some (.logging .sign p) } else c
  c

/-- Lines 74 to 84 of `NewServer`: a nil handler is replaced by the default
dispatcher over the four slots. -/
def resolveHandler (appKey masterSecret : String) (c : config) : Handler :=
  match c.handler with
  | some h => h
  | none =>
    Handler.callback
      { appKey := appKey
        masterSecret := masterSecret
        reply := c.reply
        report := c.report
        template := c.template
        sign := c.sign }

/-- The constructor `NewServer(appKey, masterSecret, opts...)`: the pair
`(*Server, error)` it returns. -/
def NewServer (pkg : Pkg) (appKey masterSecret : String) (opts : List ConfigOption) :
    Option Server × Option Error :=
  match applyOptions opts (initialConfig pkg) with
  | (_, _, some err) => (none, some err)
  | (c, _, none) =>
    let c := resolveProcessors pkg c
    let handler := resolveHandler appKey masterSecret c
    (some
      { server := { Addr := c.addr, Handler := handler }
        path := c.path
        isRunning := false
        logger := c.logger }, none)

/-! ## The run flag -/

/-- The method `hasStarted`. -/
def hasStarted (srv : Server) : Bool :=
  srv.isRunning

/-- The method `start`: builds a mux, registers the callback path on it and sets
the run flag. `none` is the panic of `mux.Handle`, which leaves the flag as it
was. The mux is a local variable and is dropped when `start` returns. -/
def start (accepts : String → Bool) (srv : Server) : Option Server :=
  let mux := NewServeMux
  match ServeMux.Handle accepts mux srv.path srv.server.Handler with
  | none => none
  | some _ => some { srv with isRunning := true }

/-- The method `stop`. -/
def stop (srv : Server) : Server :=
  { srv with isRunning := false }

/-- The method `Handle`: the server afterwards, the calls made, and the error
returned. -/
def Handle (pkg : Pkg) (srv : Server) (r : Request) : Server × List Event × Option Error :=
  (srv, ServeHTTP pkg srv.server.Handler r, none)

/-! ## `Run` -/

/-- What the outside world does during one call of `Run`. -/
structure RunEnv where
  /-- Whether `(*ServeMux).Handle` accepts a pattern. -/
  accepts : String → Bool
  /-- The error of `net.Listen("tcp", addr)`; `none` when the socket is bound. -/
  listen : Option Error
  /-- The error `Serve(ln)` returns when it ends (it is never nil). -/
  serve : Error
  /-- The `select` takes the `time.After` case: five seconds passed before it
  received anything else. -/
  timerFirst : Bool
  /-- After a successful bind, `Serve` has already failed when the `select`
  runs and the `select` takes the `errorCh` case rather than `startCh`. -/
  serveErrFirst : Bool

/-- How a call ends: by a panic, or by returning an `error` (`none` is nil). -/
inductive Ret
  | panicked
  | returned (err : Option Error)
deriving DecidableEq, Repr

/-- The server, the calls made and the way the call ended. -/
structure RunOut where
  srv : Server
  trace : List Event
  ret : Ret
deriving DecidableEq, Repr

/-- The case the `select` of `Run` takes. -/
inductive SelectCase
  | startCh
  | errorCh (err : Error)
  | timer
deriving DecidableEq, Repr

/-- The goroutine `go func() { ... }()` of `Run`: the calls it makes before the
`select` can receive from it. -/
def listenAndServe (env : RunEnv) (srv : Server) : List Event :=
  match env.listen with
  | some _ => [Event.listen srv.server.Addr]
  | none => [Event.listen srv.server.Addr, Event.serve srv.server.Handler]

/-- The case taken by the `select` of `Run`. `startCh` is closed only after a
successful `net.Listen`; `errorCh` holds the bind error, or the error of
`Serve` when that is not `http.ErrServerClosed`. -/
def startupSelect (env : RunEnv) : SelectCase :=
  if env.timerFirst then
    .timer
  else
    match env.listen with
    | some err => .errorCh err
    | none =>
      if env.serveErrFirst && env.serve != ErrServerClosed then .errorCh env.serve
      else .startCh

/-- The method `Run`, for a run in which no signal arrives before it returns.
The trace lists the calls in one interleaving of the goroutines: the start-up
log line, the calls of the serving goroutine, the `go srv.autoStop()`
statement, then the log line of the `select` case taken. After the `startCh`
case `Run` waits for the serving goroutine (`wg.Wait()`) and then returns nil.
A panic of `start` ends `Run` before anything else happens. -/
def Run (env : RunEnv) (srv : Server) : RunOut :=
  if hasStarted srv then
    { srv := srv
      trace := []
      ret := .returned (some ⟨"JSMS callback server is already running"⟩) }
  else
    match start env.accepts srv with
    | none => { srv := srv, trace := [], ret := .panicked }
    | some srv =>
      let t :=
        [Event.log srv.logger .info "正在启动极光短信回调接口服务，监听地址为 %s，回调路径为 %s"
          [srv.server.Addr, srv.path]]
        ++ listenAndServe env srv ++ [Event.goAutoStop]
      match startupSelect env with
      | .startCh =>
        { srv := srv
          trace := t ++ [Event.log srv.logger .info "极光短信回调接口服务启动成功！" []]
          ret := .returned none }
      | .errorCh err =>
        { srv := srv
          trace := t ++ [Event.log srv.logger .error "极光短信回调接口服务启动失败：%s" [err.msg]]
          ret := .returned (some err) }
      | .timer =>
        { srv := srv
          trace := t ++ [Event.log srv.logger .error "极光短信回调接口服务启动超时！" []]
          ret := .returned (some ⟨"JSMS callback server startup timeout"⟩) }

/-! ## `autoStop` -/

/-- What the outside world does during one call of `autoStop`. -/
structure StopEnv where
  /-- The signal received from `stopCh`. -/
  sig : Signal
  /-- The error of `srv.server.Shutdown(ctx)`; `none` is nil. -/
  shutdown : Option Error
  /-- The error of `srv.server.Close()`; `none` is nil. -/
  close : Option Error
deriving DecidableEq, Repr

/-- The server, the calls made, and the argument of the `os.Exit` call that
ends `autoStop`. -/
structure StopOut where
  srv : Server
  trace : List Event
  code : Int
deriving DecidableEq, Repr

/-- The method `autoStop`, from the signal subscription to the `os.Exit` call
that ends the process. -/
def autoStop (env : StopEnv) (srv : Server) : StopOut :=
  let t :=
    [Event.notify,
     Event.log srv.logger .info "接收到停止信号：%s！" [env.sig.String.toUpper]]
  if hasStarted srv then
    let srv := stop srv
    let t := t ++
      [Event.log srv.logger .info "正在停止极光短信回调接口服务..." [], Event.shutdown 5]
    match env.shutdown with
    | some err =>
      let t := t ++
        [Event.log srv.logger .warn "极光短信回调接口服务优雅停止失败：%s，正在尝试强制停止..." [err.msg],
         Event.close]
      match env.close with
      | some err =>
        { srv := srv
          trace := t ++
            [Event.log srv.logger .error "极光短信回调接口服务强制停止失败：%s，直接退出！" [err.msg],
             Event.exit 1]
          code := 1 }
      | none =>
        { srv := srv
          trace := t ++
            [Event.log srv.logger .info "极光短信回调接口服务已停止！" [], Event.exit 0]
          code := 0 }
    | none =>
      { srv := srv
        trace := t ++
          [Event.log srv.logger .info "极光短信回调接口服务已停止！" [], Event.exit 0]
        code := 0 }
  else
    { srv := srv
      trace := t ++
        [Event.log srv.logger .info "极光短信回调接口服务已停止！" [], Event.exit (-1)]
      code := -1 }

/-- The calls of a trace that stop the `http.Server`: `Shutdown` and `Close`. -/
def stopCalls (t : List Event) : List Event :=
  t.filter (fun e =>
    match e with
    | .shutdown _ => true
    | .close => true
    | _ => false)

/-! ## Reading a slot by kind, and the fold the specification speaks of -/

/-- The processor slot of kind `k` in a configuration. -/
def config.slot (c : config) : Kind → Option Processor
  | .reply => c.reply
  | .report => c.report
  | .template => c.template
  | .sign => c.sign

/-- The processor slot of kind `k` in a default dispatcher. -/
def defaultHandler.slot (h : defaultHandler) : Kind → Option Processor
  | .reply => h.reply
  | .report => h.report
  | .template => h.template
  | .sign => h.sign

/-- The flag mask of kind `k`. -/
def Pkg.flagOf (pkg : Pkg) : Kind → Nat
  | .reply => pkg.flagReply
  | .report => pkg.flagReport
  | .template => pkg.flagTemplate
  | .sign => pkg.flagSign

/-- Specification side: the left-to-right fold of the options over a
configuration, each option working on what the earlier ones left. -/
def foldOptions (opts : List ConfigOption) (c : config) : config :=
  opts.foldl (fun acc opt => (opt acc).1) c

/-- Specification side: every option of the list returns nil when applied in
its turn of the fold. -/
def allSucceed (opts : List ConfigOption) (c : config) : Prop :=
  ∀ (i : Nat) (hi : i < opts.length),
    ((opts.get ⟨i, hi⟩) (foldOptions (opts.take i) c)).2 = none

/-! ## Sequences of operations on one server -/

/-- One call of a method of the server, with what the outside world does
during it. -/
inductive Op
  | callRun (env : RunEnv)
  | callStart (accepts : String → Bool)
  | callStop
  | callHandle (r : Request)

/-- The server after one operation. A `start` that panics leaves the server as
it was. -/
def Op.apply (pkg : Pkg) (srv : Server) : Op → Server
  | .callRun env => (Run env srv).srv
  | .callStart accepts =>
    match start accepts srv with
    | some srv1 => srv1
    | none => srv
  | .callStop => stop srv
  | .callHandle r => (Handle pkg srv r).1

/-- The server after a sequence of operations, applied from left to right. -/
def applyOps (pkg : Pkg) (ops : List Op) (srv : Server) : Server :=
  ops.foldl (fun acc op => Op.apply pkg acc op) srv

/-- Whether the operation is one of the two that call `start`. -/
def Op.callsStart : Op → Bool
  | .callRun _ => true
  | .callStart _ => true
  | .callStop => false
  | .callHandle _ => false

/-! ## Concrete values used by the examples -/

/-- An option that sets the listen address. -/
def setAddr (a : String) : ConfigOption :=
  fun c => ({ c with addr := a }, none)

/-- An option that sets the logger. -/
def setLogger (l : Logger) : ConfigOption :=
  fun c => ({ c with logger := l }, none)

/-- An option that supplies the reply processor and sets the reply bit of
`samplePkg`. -/
def setReply (p : Processor) : ConfigOption :=
  fun c => ({ c with reply := some p, flag := c.flag ||| 1 }, none)

/-- An option that sets the report bit of `samplePkg` and supplies no
processor. -/
def setFlagOnly : ConfigOption :=
  fun c => ({ c with flag := c.flag ||| 2 }, none)

/-- An option that supplies the HTTP handler. -/
def setHandler (h : Handler) : ConfigOption :=
  fun c => ({ c with handler := some h }, none)

/-- Options that supply the reply processor and then change the logger. -/
def sampleOptions : List ConfigOption :=
  [setReply (.custom 3), setLogger ⟨5⟩]

/-- Options that supply a handler of the caller. -/
def handlerOptions : List ConfigOption :=
  [setReply (.custom 3), setHandler (.custom 9), setLogger ⟨5⟩]

/-- A callback request. -/
def callbackRequest : Request :=
  { path := "/callback", body := "type=SMS_REPORT" }

/-- An option that rejects its argument with a configuration error. -/
def failWith (e : Error) : ConfigOption :=
  fun c => (c, some e)

/-- Sample values for the declarations collected in `Pkg`. -/
def samplePkg : Pkg :=
  { defaultAddr := ":8088"
    defaultPath := "/callback"
    DefaultJSmsLogger := ⟨0⟩
    flagReply := 1
    flagReport := 2
    flagTemplate := 4
    flagSign := 8
    Callback := fun dh r =>
      match dh.report with
      | some p => [Event.process .report p r]
      | none => [] }

/-- A server as `NewServer` returns it (not started), with a handler of the caller. -/
def idleServer : Server :=
  { server := { Addr := ":8088", Handler := .custom 7 }
    path := "/callback"
    isRunning := false
    logger := ⟨0⟩ }

/-- The same server with the run flag set. -/
def runningServer : Server :=
  { idleServer with isRunning := true }

/-- The error of a `net.Listen` call on an address that is in use. -/
def bindErr : Error :=
  ⟨"listen tcp :8088: bind: address already in use"⟩

/-- A run in which the socket cannot be bound and the error reaches the
`select` before the timer. -/
def bindFailure : RunEnv :=
  { accepts := fun p => p != ""
    listen := some bindErr
    serve := ErrServerClosed
    timerFirst := false
    serveErrFirst := false }

/-- A run in which the socket is bound and the `select` takes `startCh`. -/
def startupOk : RunEnv :=
  { accepts := fun p => p != ""
    listen := none
    serve := ErrServerClosed
    timerFirst := false
    serveErrFirst := false }

/-- A server as `NewServer` returns it when no handler is supplied. -/
def dispatcherServer : Server :=
  { server :=
      { Addr := ":8088"
        Handler := .callback
          { appKey := "k"
            masterSecret := "s"
            reply := some (.logging .reply ⟨⟨0⟩⟩)
            report := some (.custom 4)
            template := some (.logging .template ⟨⟨0⟩⟩)
            sign := some (.logging .sign ⟨⟨0⟩⟩) } }
    path := "/callback"
    isRunning := false
    logger := ⟨0⟩ }

/-- A request for a path that is not the callback path. -/
def otherRequest : Request :=
  { path := "/admin", body := "" }

end callback

/-! # Getting push identifiers (`api/jpush/push/v3_get_cid.go`) -/

namespace push

/-- The fields of `api.Request` that `GetCidForPush` sets. -/
structure Request where
  Method : String
  Proto : String
  URL : String
  Auth : String
deriving DecidableEq, Repr

/-- An `api.Response`: the status code and the raw body. -/
structure Response where
  StatusCode : Int
  RawBody : String
deriving DecidableEq, Repr

/-- The struct `CidGetResult`: the embedded response, and the fields that
`json.Unmarshal` fills, kept as one value. -/
structure CidGetResult where
  Response : Response
  decoded : String
deriving DecidableEq, Repr

/-- The fields of the struct `apiv3` that `GetCidForPush` reads; the client is
part of `Env`. -/
structure apiv3 where
  proto : String
  host : String
  auth : String
deriving DecidableEq, Repr

/-- What `GetCidForPush` uses and does not declare: the sentinel error of the
`api` package, the answer of `p.client.Request(ctx, req)`, and what
`json.Unmarshal(data, result)` does to the result. -/
structure Env where
  ErrNilJPushPushAPIv3 : callback.Error
  request : Request → Except callback.Error Response
  unmarshal : String → CidGetResult → CidGetResult × Option callback.Error

/-- The constant `http.MethodGet`. -/
def MethodGet : String := "GET"

/-- The function `strconv.Itoa`: the decimal form of an integer. -/
def Itoa (n : Int) : String :=
  match n with
  | Int.ofNat m => Nat.repr m
  | Int.negSucc m => "-" ++ Nat.repr (m + 1)

/-- The result pair `(*CidGetResult, error)` and the requests handed to the
client, in order. -/
structure Out where
  result : Option CidGetResult
  err : Option callback.Error
  requests : List Request
deriving DecidableEq, Repr

/-- The method `GetCidForPush`; `p = none` is the nil receiver. -/
def GetCidForPush (env : Env) (p : Option apiv3) (count : Int) : Out :=
  match p with
  | none => { result := none, err := some env.ErrNilJPushPushAPIv3, requests := [] }
  | some p =>
    let count := if count < 1 then 1 else count
    let req : Request :=
      { Method := MethodGet
        Proto := p.proto
        URL := p.host ++ "/v3/push/cid?type=push&count=" ++ Itoa count
        Auth := p.auth }
    match env.request req with
    | .error err => { result := none, err := some err, requests := [req] }
    | .ok resp =>
      let result : CidGetResult := { Response := resp, decoded := "" }
      match env.unmarshal resp.RawBody result with
      | (_, some err) => { result := none, err := some err, requests := [req] }
      | (result, none) => { result := some result, err := none, requests := [req] }

/-- A client value for the examples. -/
def sampleApi : apiv3 :=
  { proto := "HTTP/1.1", host := "https://api.jpush.cn", auth := "Basic a2V5OnNlY3JldA==" }

/-- An environment for the examples: the server answers 200 and the body decodes. -/
def sampleEnv : Env :=
  { ErrNilJPushPushAPIv3 := ⟨"api: nil JPush Push APIv3"⟩
    request := fun _ => .ok { StatusCode := 200, RawBody := "cidlist" }
    unmarshal := fun data result => ({ result with decoded := data }, none) }

end push

/-! # The result of a schedule query (`api/jpush/schedule/v3_get_schedule.go`)

The bytes that `MarshalJSON` writes and `UnmarshalJSON` reads are represented
by the JSON object they spell: its members in order. Values of types declared
outside `src/` (`api.CodeError`, `send.Param`) or built from such types
(`Trigger`, whose times are `jiguang` types) are carried as the text of the
JSON object they marshal to, and decoding that text gives the value back. -/

namespace schedule

/-- A JSON value under a key of the top-level object; a nested object is kept
as its text. -/
inductive Value
  | null
  | bool (b : Bool)
  | str (s : String)
  | object (text : String)
deriving DecidableEq, Repr

/-- A top-level JSON object: its members in order. -/
abbrev Object := List (String × Value)

/-- A non-nil `*api.CodeError`. -/
structure CodeError where
  json : String
deriving DecidableEq, Repr

/-- A non-nil `*Trigger`. -/
structure Trigger where
  json : String
deriving DecidableEq, Repr

/-- A non-nil `*Push`. -/
structure Push where
  json : String
deriving DecidableEq, Repr

/-- The struct `SendParam`, alias `scheduleDetail`. -/
structure SendParam where
  CID : String
  Name : String
  Enabled : Bool
  Trigger : Option Trigger
  Push : Option Push
deriving DecidableEq, Repr

/-- The struct `Schedule`: the task id and the embedded `scheduleDetail`. -/
structure Schedule where
  ScheduleID : String
  scheduleDetail : SendParam
deriving DecidableEq, Repr

/-- The struct `ScheduleGetResult`; `none` is a nil pointer. The embedded
`*api.Response` is identified by a tag. -/
structure ScheduleGetResult where
  Response : Option Nat
  Error : Option CodeError
  Schedule : Option Schedule
deriving DecidableEq, Repr

/-- The error `json.Unmarshal` returns when a value has the wrong JSON type. -/
def typeError : callback.Error := ⟨"json: cannot unmarshal value into Go struct field"⟩

/-- The value a decoder sees for a key: the last member with that key. -/
def lookup (data : Object) (key : String) : Option Value :=
  (data.reverse.find? (fun e => e.1 == key)).map (fun e => e.2)

/-- Decoding into a `string` field that holds `cur`: an absent key and `null`
leave the field alone. -/
def unmarshalString (v : Option Value) (cur : String) : Except callback.Error String :=
  match v with
  | none => .ok cur
  | some .null => .ok cur
  | some (.str s) => .ok s
  | some _ => .error typeError

/-- Decoding into a `bool` field that holds `cur`. -/
def unmarshalBool (v : Option Value) (cur : Bool) : Except callback.Error Bool :=
  match v with
  | none => .ok cur
  | some .null => .ok cur
  | some (.bool b) => .ok b
  | some _ => .error typeError

/-- Decoding into a pointer field that holds `cur`: `null` sets it to nil, an
object allocates the value. -/
def unmarshalPointer {α : Type} (mk : String → α) (v : Option Value) (cur : Option α) :
    Except callback.Error (Option α) :=
  match v with
  | none => .ok cur
  | some .null => .ok none
  | some (.object text) => .ok (some (mk text))
  | some _ => .error typeError

/-- The encoding of a pointer field without `omitempty`: nil is `null`. -/
def marshalPointer {α : Type} (json : α → String) (v : Option α) : Value :=
  match v with
  | none => .null
  | some x => .object (json x)

/-- The call `json.Marshal` on a `SendParam`, by its field tags: `cid` is
omitted when empty, the other four keys are always written. -/
def marshalSendParam (p : SendParam) : Object :=
  (if p.CID = "" then [] else [("cid", Value.str p.CID)]) ++
  [("name", Value.str p.Name),
   ("enabled", Value.bool p.Enabled),
   ("trigger", marshalPointer Trigger.json p.Trigger),
   ("push", marshalPointer Push.json p.Push)]

/-- The call `json.Unmarshal(data, &detail)` on a zero `Schedule`, by its field
tags, the embedded `scheduleDetail` included. -/
def unmarshalSchedule (data : Object) : Except callback.Error Schedule := do
  let id ← unmarshalString (lookup data "schedule_id") ""
  let cid ← unmarshalString (lookup data "cid") ""
  let name ← unmarshalString (lookup data "name") ""
  let enabled ← unmarshalBool (lookup data "enabled") false
  let trigger ← unmarshalPointer Trigger.mk (lookup data "trigger") none
  let push ← unmarshalPointer Push.mk (lookup data "push") none
  pure
    { ScheduleID := id
      scheduleDetail :=
        { CID := cid, Name := name, Enabled := enabled, Trigger := trigger, Push := push } }

/-- The method `MarshalJSON`. With an error it writes the `error` key alone;
otherwise it marshals `rs.scheduleDetail`, the `SendParam` embedded in
`rs.Schedule`. `none` is the panic of reading through a nil `Schedule`; the
error it returns is always nil. -/
def MarshalJSON (rs : ScheduleGetResult) : Option Object :=
  match rs.Error with
  | some e => some [("error", Value.object e.json)]
  | none =>
    match rs.Schedule with
    | none => none
    | some s => some (marshalSendParam s.scheduleDetail)

/-- The method `UnmarshalJSON` on data that spells a JSON object: the `error`
key, when present, is decoded into `rs.Error`; then the whole object is decoded
into a fresh `Schedule`, which becomes `rs.Schedule`. On an error the model
returns the error only. -/
def UnmarshalJSON (rs : ScheduleGetResult) (data : Object) :
    Except callback.Error ScheduleGetResult := do
  let rs ←
    match lookup data "error" with
    | some codeError => do
      let e ← unmarshalPointer CodeError.mk (some codeError) rs.Error
      pure { rs with Error := e }
    | none => pure rs
  let detail ← unmarshalSchedule data
  pure { rs with Schedule := some detail }

/-- A schedule with a task id. -/
def sampleSchedule : Schedule :=
  { ScheduleID := "0eac1b80-c2ac-4b69-948b-c65b34b96512"
    scheduleDetail :=
      { CID := "7103a4c428a0b98974ec1849-711161d4"
        Name := "nightly"
        Enabled := true
        Trigger := some ⟨"\x7b\x7d"⟩
        Push := none } }

/-- A query result without error that holds `sampleSchedule`. -/
def sampleResult : ScheduleGetResult :=
  { Response := some 1, Error := none, Schedule := some sampleSchedule }

/-- The zero value of `ScheduleGetResult`. -/
def zeroResult : ScheduleGetResult :=
  { Response := none, Error := none, Schedule := none }

end schedule

namespace callback

/-! ## Theorems: the run flag -/

/-- The method `start` changes the run flag only. -/
theorem start_eq (accepts : String → Bool) (srv srv1 : Server)
    (h : start accepts srv = some srv1) : srv1 = { srv with isRunning := true } := by
  simp only [start] at h
  cases hm : ServeMux.Handle accepts NewServeMux srv.path srv.server.Handler with
  | none => simp [hm] at h
  | some m =>
    simp only [hm] at h
    exact (Option.some.inj h).symm

/-- The method `start` succeeds on every path the mux accepts. -/
theorem start_of_accepts (accepts : String → Bool) (srv : Server)
    (h : accepts srv.path = true) :
    start accepts srv = some { srv with isRunning := true } := by
  simp [start, ServeMux.Handle, NewServeMux, h]

/-! ## Theorems: the option loop -/

/-- Folding a non-empty list applies the head first. -/
theorem foldOptions_cons (opt : ConfigOption) (rest : List ConfigOption) (c : config) :
    foldOptions (opt :: rest) c = foldOptions rest (opt c).1 := rfl

/-- The last option of a list has the last word on the configuration. -/
theorem foldOptions_snoc (pre : List ConfigOption) (opt : ConfigOption) (c : config) :
    foldOptions (pre ++ [opt]) c = (opt (foldOptions pre c)).1 := by
  simp [foldOptions, List.foldl_append]

/-- The empty list succeeds. -/
theorem allSucceed_nil (c : config) : allSucceed [] c := by
  intro i hi
  simp at hi

/-- Success of a non-empty list: the head succeeds and so does the tail on what
the head left. -/
theorem allSucceed_cons (opt : ConfigOption) (rest : List ConfigOption) (c : config) :
    allSucceed (opt :: rest) c ↔ (opt c).2 = none ∧ allSucceed rest (opt c).1 := by
  constructor
  · intro h
    refine ⟨h 0 (by simp), ?_⟩
    intro i hi
    have := h (i + 1) (by simpa using hi)
    simpa [foldOptions_cons] using this
  · rintro ⟨h0, hrest⟩ i hi
    cases i with
    | zero => simpa [foldOptions] using h0
    | succ j =>
      have := hrest j (by simpa using hi)
      simpa [foldOptions_cons] using this

/-- When every option succeeds the loop computes the fold and applies every
option once. -/
theorem applyOptions_of_allSucceed (opts : List ConfigOption) (c : config)
    (h : allSucceed opts c) :
    applyOptions opts c = (foldOptions opts c, opts.length, none) := by
  induction opts generalizing c with
  | nil => rfl
  | cons opt rest ih =>
    obtain ⟨h0, hrest⟩ := (allSucceed_cons opt rest c).1 h
    have hopt : opt c = ((opt c).1, none) := Prod.ext rfl h0
    have hr := ih (opt c).1 hrest
    rw [applyOptions, hopt]
    simp [hr, foldOptions_cons]

/-- The loop stops at the first option that fails: options after it are not
applied. -/
theorem applyOptions_first_failure (pre post : List ConfigOption) (opt : ConfigOption)
    (c : config) (e : Error) (hpre : allSucceed pre c)
    (hopt : (opt (foldOptions pre c)).2 = some e) :
    applyOptions (pre ++ opt :: post) c =
      ((opt (foldOptions pre c)).1, pre.length + 1, some e) := by
  induction pre generalizing c with
  | nil =>
    have hpair : opt c = ((opt c).1, some e) := Prod.ext rfl (by simpa [foldOptions] using hopt)
    rw [List.nil_append, applyOptions, hpair]
    simp [foldOptions]
  | cons o rest ih =>
    obtain ⟨h0, hrest⟩ := (allSucceed_cons o rest c).1 hpre
    have ho : o c = ((o c).1, none) := Prod.ext rfl h0
    have hr := ih (o c).1 hrest (by simpa [foldOptions_cons] using hopt)
    rw [List.cons_append, applyOptions, ho]
    simp [hr, foldOptions_cons]

/-- A loop that ends without error has run every option successfully. -/
theorem allSucceed_of_applyOptions (opts : List ConfigOption) (c : config)
    (h : (applyOptions opts c).2.2 = none) : allSucceed opts c := by
  induction opts generalizing c with
  | nil => intro i hi; simp at hi
  | cons opt rest ih =>
    rw [allSucceed_cons]
    rw [applyOptions] at h
    cases hres : (opt c).2 with
    | some e =>
      have hpair : opt c = ((opt c).1, some e) := Prod.ext rfl hres
      rw [hpair] at h
      simp at h
    | none =>
      have hpair : opt c = ((opt c).1, none) := Prod.ext rfl hres
      rw [hpair] at h
      exact ⟨rfl, ih (opt c).1 (by simpa using h)⟩

/-- The server `NewServer` returns on success, in terms of the fold. -/
theorem NewServer_eq_of_allSucceed (pkg : Pkg) (appKey masterSecret : String)
    (opts : List ConfigOption) (h : allSucceed opts (initialConfig pkg)) :
    NewServer pkg appKey masterSecret opts =
      (some
        { server :=
            { Addr := (resolveProcessors pkg (foldOptions opts (initialConfig pkg))).addr
              Handler := resolveHandler appKey masterSecret
                (resolveProcessors pkg (foldOptions opts (initialConfig pkg))) }
          path := (resolveProcessors pkg (foldOptions opts (initialConfig pkg))).path
          isRunning := false
          logger := (resolveProcessors pkg (foldOptions opts (initialConfig pkg))).logger },
       none) := by
  simp [NewServer, applyOptions_of_allSucceed opts (initialConfig pkg) h]

/-- A successful `NewServer` call went through every option. -/
theorem allSucceed_of_NewServer (pkg : Pkg) (appKey masterSecret : String)
    (opts : List ConfigOption) (srv : Server)
    (h : NewServer pkg appKey masterSecret opts = (some srv, none)) :
    allSucceed opts (initialConfig pkg) := by
  apply allSucceed_of_applyOptions
  cases hres : (applyOptions opts (initialConfig pkg)).2.2 with
  | none => rfl
  | some e =>
    have hpair : applyOptions opts (initialConfig pkg) =
        ((applyOptions opts (initialConfig pkg)).1,
          (applyOptions opts (initialConfig pkg)).2.1, some e) :=
      Prod.ext rfl (Prod.ext rfl hres)
    rw [NewServer, hpair] at h
    simp at h

/-- The slot resolution leaves address, path, logger, flag and handler alone. -/
theorem resolveProcessors_frame (pkg : Pkg) (c : config) :
    (resolveProcessors pkg c).addr = c.addr ∧
    (resolveProcessors pkg c).path = c.path ∧
    (resolveProcessors pkg c).logger = c.logger ∧
    (resolveProcessors pkg c).flag = c.flag ∧
    (resolveProcessors pkg c).handler = c.handler := by
  unfold resolveProcessors
  simp only []
  split_ifs <;> simp

/-- The slot of kind `k` after the resolution. -/
theorem resolveProcessors_slot (pkg : Pkg) (c : config) (k : Kind) :
    (resolveProcessors pkg c).slot k =
      (if c.flag &&& pkg.flagOf k = 0 then some (Processor.logging k ⟨c.logger⟩)
       else c.slot k) := by
  unfold resolveProcessors
  cases k <;> simp only [config.slot, Pkg.flagOf] <;> split_ifs <;> simp

/-- Every option list either succeeds throughout or has a first failing option. -/
theorem allSucceed_or_first_failure (opts : List ConfigOption) (c : config) :
    allSucceed opts c ∨
    ∃ (pre post : List ConfigOption) (opt : ConfigOption) (e : Error),
      opts = pre ++ opt :: post ∧ allSucceed pre c ∧
      (opt (foldOptions pre c)).2 = some e := by
  induction opts generalizing c with
  | nil => left; intro i hi; simp at hi
  | cons o rest ih =>
    cases hres : (o c).2 with
    | some e =>
      right
      refine ⟨[], rest, o, e, rfl, ?_, by simpa [foldOptions] using hres⟩
      intro i hi; simp at hi
    | none =>
      rcases ih (o c).1 with hall | ⟨pre, post, opt, e, heq, hpre, hopt⟩
      · left
        exact (allSucceed_cons o rest c).2 ⟨hres, hall⟩
      · right
        refine ⟨o :: pre, post, opt, e, by simp [heq], ?_, by simpa [foldOptions_cons] using hopt⟩
        exact (allSucceed_cons o pre c).2 ⟨hres, hpre⟩

/-! ## Theorems: `NewServer` -/

/-- C4 as stated fails in its last sentence. With the single option
`setFlagOnly`, which sets the report bit and supplies no processor, `NewServer`
succeeds, and the report slot is nil after the resolution, in the configuration
and in the default dispatcher the server serves with: that slot is resolved to
no processor. -/
theorem NewServer_flag_without_processor :
    (NewServer samplePkg "k" "s" [setFlagOnly]).2 = none ∧
    (NewServer samplePkg "k" "s" [setFlagOnly]).1.isSome = true ∧
    (foldOptions [setFlagOnly] (initialConfig samplePkg)).flag &&& samplePkg.flagOf .report ≠ 0 ∧
    (resolveProcessors samplePkg
      (foldOptions [setFlagOnly] (initialConfig samplePkg))).slot .report = none ∧
    (NewServer samplePkg "k" "s" [setFlagOnly]).1.map (fun srv => srv.server.Handler) =
      some (Handler.callback
        { appKey := "k"
          masterSecret := "s"
          reply := some (.logging .reply ⟨⟨0⟩⟩)
          report := none
          template := some (.logging .template ⟨⟨0⟩⟩)
          sign := some (.logging .sign ⟨⟨0⟩⟩) }) := by
  decide

/-- C4, amended. On every option list on which `NewServer` succeeds and for
each kind `k`: the slot of `k` after the resolution is the logging processor of
kind `k` over the logger of the folded configuration when the flag bit of `k`
is clear in that configuration, and exactly what the options left in the slot
otherwise, nil included. The server's logger is that same logger and its
handler is built from the resolved configuration. A slot is resolved to a
processor (is non-nil) whenever the options leave a processor with every flag
bit they set; `NewServer` does not check this itself. -/
theorem NewServer_slots (pkg : Pkg) (appKey masterSecret : String)
    (opts : List ConfigOption) (srv : Server) (k : Kind)
    (h : NewServer pkg appKey masterSecret opts = (some srv, none)) :
    (resolveProcessors pkg (foldOptions opts (initialConfig pkg))).slot k =
      (if (foldOptions opts (initialConfig pkg)).flag &&& pkg.flagOf k = 0 then
        some (Processor.logging k ⟨(foldOptions opts (initialConfig pkg)).logger⟩)
       else (foldOptions opts (initialConfig pkg)).slot k) ∧
    srv.logger = (foldOptions opts (initialConfig pkg)).logger ∧
    srv.server.Handler = resolveHandler appKey masterSecret
      (resolveProcessors pkg (foldOptions opts (initialConfig pkg))) ∧
    (((foldOptions opts (initialConfig pkg)).flag &&& pkg.flagOf k ≠ 0 →
        (foldOptions opts (initialConfig pkg)).slot k ≠ none) →
      (resolveProcessors pkg (foldOptions opts (initialConfig pkg))).slot k ≠ none) := by
  have hall := allSucceed_of_NewServer pkg appKey masterSecret opts srv h
  have heq := NewServer_eq_of_allSucceed pkg appKey masterSecret opts hall
  rw [h] at heq
  have hsrv := Option.some.inj (Prod.mk.inj heq).1
  have hframe := resolveProcessors_frame pkg (foldOptions opts (initialConfig pkg))
  have hslot := resolveProcessors_slot pkg (foldOptions opts (initialConfig pkg)) k
  refine ⟨hslot, ?_, ?_, ?_⟩
  · rw [hsrv]; exact hframe.2.2.1
  · rw [hsrv]
  · intro hleft
    rw [hslot]
    split_ifs with hbit
    · simp
    · exact hleft hbit

/-- Witness of `NewServer_slots` on `sampleOptions`: the reply slot is supplied
by an option, the logger is changed by a later option, and the report slot is
the logging processor over the changed logger. -/
theorem NewServer_slots_witness :
    ∃ srv : Server,
      NewServer samplePkg "k" "s" sampleOptions = (some srv, none) ∧
      ((resolveProcessors samplePkg (foldOptions sampleOptions (initialConfig samplePkg))).slot
          .report =
        (if (foldOptions sampleOptions (initialConfig samplePkg)).flag
              &&& samplePkg.flagOf .report = 0 then
          some (Processor.logging .report
            ⟨(foldOptions sampleOptions (initialConfig samplePkg)).logger⟩)
         else (foldOptions sampleOptions (initialConfig samplePkg)).slot .report) ∧
        srv.logger = (foldOptions sampleOptions (initialConfig samplePkg)).logger ∧
        srv.server.Handler = resolveHandler "k" "s"
          (resolveProcessors samplePkg (foldOptions sampleOptions (initialConfig samplePkg)))) ∧
      (resolveProcessors samplePkg (foldOptions sampleOptions (initialConfig samplePkg))).slot
        .report ≠ none ∧
      (resolveProcessors samplePkg (foldOptions sampleOptions (initialConfig samplePkg))).slot
        .report = some (Processor.logging .report ⟨⟨5⟩⟩) ∧
      (resolveProcessors samplePkg (foldOptions sampleOptions (initialConfig samplePkg))).slot
        .reply = some (Processor.custom 3) :=
  have hnew : NewServer samplePkg "k" "s" sampleOptions =
      (some ⟨⟨":8088", resolveHandler "k" "s" (resolveProcessors samplePkg
        (foldOptions sampleOptions (initialConfig samplePkg)))⟩, "/callback", false, ⟨5⟩⟩,
        none) := by decide
  have hthm := NewServer_slots samplePkg "k" "s" sampleOptions _ .report hnew
  ⟨_, hnew, ⟨hthm.1, hthm.2.1, hthm.2.2.1⟩, hthm.2.2.2 (by decide), by decide, by decide⟩

/-- C5. The result of `NewServer` is the left-to-right fold of the options over
the default configuration. When an option fails after all earlier ones
succeeded, `NewServer` returns no server and exactly that option's error, and
the loop has applied that option and the earlier ones only. When no option
fails, `NewServer` returns a server and a nil error; address, path and logger
of the server are those of the folded configuration, in which the last option
has the last word. Every option list is in one of the two cases. -/
theorem NewServer_fold (pkg : Pkg) (appKey masterSecret : String) :
    (∀ (pre post : List ConfigOption) (opt : ConfigOption) (e : Error),
      allSucceed pre (initialConfig pkg) →
      (opt (foldOptions pre (initialConfig pkg))).2 = some e →
      NewServer pkg appKey masterSecret (pre ++ opt :: post) = (none, some e) ∧
      (applyOptions (pre ++ opt :: post) (initialConfig pkg)).2.1 = pre.length + 1) ∧
    (∀ opts : List ConfigOption, allSucceed opts (initialConfig pkg) →
      ∃ srv : Server, NewServer pkg appKey masterSecret opts = (some srv, none) ∧
        srv.server.Addr = (foldOptions opts (initialConfig pkg)).addr ∧
        srv.path = (foldOptions opts (initialConfig pkg)).path ∧
        srv.logger = (foldOptions opts (initialConfig pkg)).logger ∧
        srv.isRunning = false ∧
        (applyOptions opts (initialConfig pkg)).2.1 = opts.length) ∧
    (∀ (pre : List ConfigOption) (opt : ConfigOption) (c : config),
      foldOptions (pre ++ [opt]) c = (opt (foldOptions pre c)).1) ∧
    (∀ opts : List ConfigOption, allSucceed opts (initialConfig pkg) ∨
      ∃ (pre post : List ConfigOption) (opt : ConfigOption) (e : Error),
        opts = pre ++ opt :: post ∧ allSucceed pre (initialConfig pkg) ∧
        (opt (foldOptions pre (initialConfig pkg))).2 = some e) := by
  refine ⟨?_, ?_, foldOptions_snoc, fun opts => allSucceed_or_first_failure opts _⟩
  · intro pre post opt e hpre hopt
    have hloop := applyOptions_first_failure pre post opt (initialConfig pkg) e hpre hopt
    simp [NewServer, hloop]
  · intro opts hall
    have hframe := resolveProcessors_frame pkg (foldOptions opts (initialConfig pkg))
    refine ⟨_, NewServer_eq_of_allSucceed pkg appKey masterSecret opts hall,
      hframe.1, hframe.2.1, hframe.2.2.1, rfl, ?_⟩
    rw [applyOptions_of_allSucceed opts (initialConfig pkg) hall]

/-- Witness of `NewServer_fold`: a list whose second option fails, and a list
without failure in which the address is set twice. -/
theorem NewServer_fold_witness :
    (NewServer samplePkg "k" "s"
        ([setAddr ":1"] ++ failWith ⟨"bad"⟩ :: [failWith ⟨"worse"⟩, setLogger ⟨5⟩]) =
        (none, some ⟨"bad"⟩) ∧
      (applyOptions ([setAddr ":1"] ++ failWith ⟨"bad"⟩ :: [failWith ⟨"worse"⟩, setLogger ⟨5⟩])
        (initialConfig samplePkg)).2.1 = [setAddr ":1"].length + 1) ∧
    (∃ srv : Server,
      NewServer samplePkg "k" "s" [setAddr ":1", setLogger ⟨5⟩, setAddr ":2"] =
        (some srv, none) ∧
      srv.server.Addr =
        (foldOptions [setAddr ":1", setLogger ⟨5⟩, setAddr ":2"] (initialConfig samplePkg)).addr ∧
      srv.path =
        (foldOptions [setAddr ":1", setLogger ⟨5⟩, setAddr ":2"] (initialConfig samplePkg)).path ∧
      srv.logger =
        (foldOptions [setAddr ":1", setLogger ⟨5⟩, setAddr ":2"]
          (initialConfig samplePkg)).logger ∧
      srv.isRunning = false ∧
      (applyOptions [setAddr ":1", setLogger ⟨5⟩, setAddr ":2"] (initialConfig samplePkg)).2.1 =
        [setAddr ":1", setLogger ⟨5⟩, setAddr ":2"].length) ∧
    (foldOptions [setAddr ":1", setLogger ⟨5⟩, setAddr ":2"] (initialConfig samplePkg)).addr =
      ":2" :=
  ⟨(NewServer_fold samplePkg "k" "s").1 [setAddr ":1"] [failWith ⟨"worse"⟩, setLogger ⟨5⟩]
      (failWith ⟨"bad"⟩) ⟨"bad"⟩
      ((allSucceed_cons _ _ _).2 ⟨rfl, allSucceed_nil _⟩)
      (by rfl),
   (NewServer_fold samplePkg "k" "s").2.1 [setAddr ":1", setLogger ⟨5⟩, setAddr ":2"]
      ((allSucceed_cons _ _ _).2 ⟨rfl, (allSucceed_cons _ _ _).2
        ⟨rfl, (allSucceed_cons _ _ _).2 ⟨rfl, allSucceed_nil _⟩⟩⟩),
   by decide⟩

/-- C6. On a successful `NewServer` call: a handler `hd` left in the folded
configuration is exactly the server's handler, and `Handle` passes every
request to it; when it is a handler of the caller, the server's handler is no
default dispatcher, `Handle` makes that one `ServeHTTP` call and hands the
request to no processor. When the folded configuration has no handler, the
server's handler is the default dispatcher over `appKey`, `masterSecret` and
the four resolved slots, each kind in its own slot. -/
theorem NewServer_handler (pkg : Pkg) (appKey masterSecret : String)
    (opts : List ConfigOption) (srv : Server)
    (h : NewServer pkg appKey masterSecret opts = (some srv, none)) :
    (∀ hd : Handler, (foldOptions opts (initialConfig pkg)).handler = some hd →
      srv.server.Handler = hd ∧
      ∀ r : Request, Handle pkg srv r = (srv, ServeHTTP pkg hd r, none)) ∧
    (∀ id : Nat, (foldOptions opts (initialConfig pkg)).handler = some (Handler.custom id) →
      (∀ dh : defaultHandler, srv.server.Handler ≠ Handler.callback dh) ∧
      ∀ r : Request,
        Handle pkg srv r = (srv, [Event.serveHTTP (Handler.custom id) r], none) ∧
        ∀ (k : Kind) (p : Processor) (r1 : Request),
          Event.process k p r1 ∉ (Handle pkg srv r).2.1) ∧
    ((foldOptions opts (initialConfig pkg)).handler = none →
      ∃ dh : defaultHandler,
        srv.server.Handler = Handler.callback dh ∧
        dh.appKey = appKey ∧ dh.masterSecret = masterSecret ∧
        ∀ k : Kind,
          dh.slot k = (resolveProcessors pkg (foldOptions opts (initialConfig pkg))).slot k ∧
          dh.slot k =
            (if (foldOptions opts (initialConfig pkg)).flag &&& pkg.flagOf k = 0 then
              some (Processor.logging k ⟨(foldOptions opts (initialConfig pkg)).logger⟩)
             else (foldOptions opts (initialConfig pkg)).slot k)) := by
  have hall := allSucceed_of_NewServer pkg appKey masterSecret opts srv h
  have heq := NewServer_eq_of_allSucceed pkg appKey masterSecret opts hall
  rw [h] at heq
  have hsrv := Option.some.inj (Prod.mk.inj heq).1
  have hframe := resolveProcessors_frame pkg (foldOptions opts (initialConfig pkg))
  have hhandler : srv.server.Handler = resolveHandler appKey masterSecret
      (resolveProcessors pkg (foldOptions opts (initialConfig pkg))) := by rw [hsrv]
  have hgiven : ∀ hd : Handler, (foldOptions opts (initialConfig pkg)).handler = some hd →
      srv.server.Handler = hd := by
    intro hd hhd
    rw [hhandler]
    simp [resolveHandler, hframe.2.2.2.2, hhd]
  refine ⟨?_, ?_, ?_⟩
  · intro hd hhd
    refine ⟨hgiven hd hhd, ?_⟩
    intro r
    simp [Handle, hgiven hd hhd]
  · intro id hid
    have hc := hgiven (Handler.custom id) hid
    refine ⟨?_, ?_⟩
    · intro dh hdh
      rw [hc] at hdh
      cases hdh
    · intro r
      simp [Handle, hc, ServeHTTP]
  · intro hnone
    refine ⟨{ appKey := appKey
              masterSecret := masterSecret
              reply := (resolveProcessors pkg (foldOptions opts (initialConfig pkg))).reply
              report := (resolveProcessors pkg (foldOptions opts (initialConfig pkg))).report
              template := (resolveProcessors pkg (foldOptions opts (initialConfig pkg))).template
              sign := (resolveProcessors pkg (foldOptions opts (initialConfig pkg))).sign },
      ?_, rfl, rfl, ?_⟩
    · rw [hhandler]
      simp only [resolveHandler, hframe.2.2.2.2, hnone]
    · intro k
      have hslot := resolveProcessors_slot pkg (foldOptions opts (initialConfig pkg)) k
      have hk : defaultHandler.slot
          { appKey := appKey
            masterSecret := masterSecret
            reply := (resolveProcessors pkg (foldOptions opts (initialConfig pkg))).reply
            report := (resolveProcessors pkg (foldOptions opts (initialConfig pkg))).report
            template := (resolveProcessors pkg (foldOptions opts (initialConfig pkg))).template
            sign := (resolveProcessors pkg (foldOptions opts (initialConfig pkg))).sign } k =
          (resolveProcessors pkg (foldOptions opts (initialConfig pkg))).slot k := by
        cases k <;> rfl
      exact ⟨hk, hk.trans hslot⟩

/-- Witness of `NewServer_handler`: with `handlerOptions` the server's handler
is the caller's handler 9 and a callback request goes to it alone; with
`sampleOptions` the handler is the default dispatcher over the resolved slots. -/
theorem NewServer_handler_witness :
    (∃ srv : Server,
      NewServer samplePkg "k" "s" handlerOptions = (some srv, none) ∧
      srv.server.Handler = Handler.custom 9 ∧
      (∀ dh : defaultHandler, srv.server.Handler ≠ Handler.callback dh) ∧
      Handle samplePkg srv callbackRequest =
        (srv, [Event.serveHTTP (Handler.custom 9) callbackRequest], none) ∧
      ∀ (k : Kind) (p : Processor) (r1 : Request),
        Event.process k p r1 ∉ (Handle samplePkg srv callbackRequest).2.1) ∧
    (∃ srv : Server,
      NewServer samplePkg "k" "s" sampleOptions = (some srv, none) ∧
      ∃ dh : defaultHandler,
        srv.server.Handler = Handler.callback dh ∧
        dh.appKey = "k" ∧ dh.masterSecret = "s" ∧
        ∀ k : Kind,
          dh.slot k =
            (resolveProcessors samplePkg
              (foldOptions sampleOptions (initialConfig samplePkg))).slot k ∧
          dh.slot k =
            (if (foldOptions sampleOptions (initialConfig samplePkg)).flag
                  &&& samplePkg.flagOf k = 0 then
              some (Processor.logging k
                ⟨(foldOptions sampleOptions (initialConfig samplePkg)).logger⟩)
             else (foldOptions sampleOptions (initialConfig samplePkg)).slot k)) :=
  have hcustom : NewServer samplePkg "k" "s" handlerOptions =
      (some ⟨⟨":8088", Handler.custom 9⟩, "/callback", false, ⟨5⟩⟩, none) := by decide
  have hdefault : NewServer samplePkg "k" "s" sampleOptions =
      (some ⟨⟨":8088", resolveHandler "k" "s" (resolveProcessors samplePkg
        (foldOptions sampleOptions (initialConfig samplePkg)))⟩, "/callback", false, ⟨5⟩⟩,
        none) := by decide
  have h1 := NewServer_handler samplePkg "k" "s" handlerOptions _ hcustom
  have h2 := NewServer_handler samplePkg "k" "s" sampleOptions _ hdefault
  ⟨⟨_, hcustom, (h1.1 (Handler.custom 9) (by decide)).1,
      (h1.2.1 9 (by decide)).1,
      ((h1.2.1 9 (by decide)).2 callbackRequest).1,
      ((h1.2.1 9 (by decide)).2 callbackRequest).2⟩,
   ⟨_, hdefault, h2.2.2 (by decide)⟩⟩

/-! ## Theorems: `Run` -/

/-- C1 as stated fails. The server `idleServer` is Idle and `net.Listen` fails
with `bindErr`; `Run` returns `bindErr`, but `hasStarted()` is true afterwards,
not false. -/
theorem Run_bind_error_leaves_flag_set :
    hasStarted idleServer = false ∧ bindFailure.listen = some bindErr ∧
    (Run bindFailure idleServer).ret = Ret.returned (some bindErr) ∧
    ¬ (hasStarted (Run bindFailure idleServer).srv = false) := by
  decide

/-- C1, amended. For a server in the Idle state whose callback path the mux
accepts: if `net.Listen` fails and the `select` of `Run` receives the error
before the five-second timer, then `Run` returns that bind error, the run flag
is set afterwards (`hasStarted()` is true) and no other field has changed. -/
theorem Run_bind_error (env : RunEnv) (srv : Server) (err : Error)
    (hidle : hasStarted srv = false) (hpath : env.accepts srv.path = true)
    (hlisten : env.listen = some err) (htimer : env.timerFirst = false) :
    (Run env srv).ret = Ret.returned (some err) ∧
    hasStarted (Run env srv).srv = true ∧
    (Run env srv).srv = { srv with isRunning := true } := by
  have hs := start_of_accepts env.accepts srv hpath
  have hflag : srv.isRunning = false := hidle
  simp [Run, hs, startupSelect, hlisten, htimer, hasStarted, hflag]

/-- Witness of `Run_bind_error` on `idleServer` and `bindFailure`. -/
theorem Run_bind_error_witness :
    (Run bindFailure idleServer).ret = Ret.returned (some bindErr) ∧
    hasStarted (Run bindFailure idleServer).srv = true ∧
    (Run bindFailure idleServer).srv = { idleServer with isRunning := true } :=
  Run_bind_error bindFailure idleServer bindErr (by decide) (by decide) (by decide) (by decide)

/-- C2. On a server whose run flag is set, `Run` returns the "already running"
error, makes no call at all (no socket is opened, nothing is served, no signal
watcher is started), and returns the server with every field as it was. -/
theorem Run_already_running (env : RunEnv) (srv : Server) (h : hasStarted srv = true) :
    (Run env srv).ret = Ret.returned (some ⟨"JSMS callback server is already running"⟩) ∧
    (Run env srv).trace = [] ∧
    (Run env srv).srv = srv ∧
    (Run env srv).srv.isRunning = srv.isRunning ∧
    (Run env srv).srv.server.Handler = srv.server.Handler ∧
    (Run env srv).srv.path = srv.path ∧
    (Run env srv).srv.server.Addr = srv.server.Addr := by
  simp [Run, h]

/-- Witness of `Run_already_running` on `runningServer`. -/
theorem Run_already_running_witness :
    (Run bindFailure runningServer).ret =
      Ret.returned (some ⟨"JSMS callback server is already running"⟩) ∧
    (Run bindFailure runningServer).trace = [] ∧
    (Run bindFailure runningServer).srv = runningServer ∧
    (Run bindFailure runningServer).srv.isRunning = runningServer.isRunning ∧
    (Run bindFailure runningServer).srv.server.Handler = runningServer.server.Handler ∧
    (Run bindFailure runningServer).srv.path = runningServer.path ∧
    (Run bindFailure runningServer).srv.server.Addr = runningServer.server.Addr :=
  Run_already_running bindFailure runningServer (by decide)

/-- C3 fails on the code. After `start` on a server whose callback path is
`/callback`, the `http.Server` still serves with the configured handler itself:
a request for `/admin` is passed to that handler. The mux on which `start`
registers the callback path is never made the server's handler. -/
theorem start_leaves_handler_unrouted :
    (start bindFailure.accepts idleServer).map (fun s => s.server.Handler) =
      some idleServer.server.Handler ∧
    otherRequest.path ≠ idleServer.path ∧
    (start bindFailure.accepts idleServer).map
        (fun s => HttpServer.dispatch samplePkg s.server otherRequest) =
      some [Event.serveHTTP idleServer.server.Handler otherRequest] := by
  decide

/-! ## Theorems: `autoStop` and `stop` -/

/-- C7. The argument of the `os.Exit` call that ends `autoStop` is determined by
the run flag at signal time and by whether `Shutdown` and `Close` fail: it is
`-1` when the server is not running, `1` when it is running and both `Shutdown`
and `Close` fail, and `0` otherwise. The two failure codes are non-zero and
differ, also in their low eight bits. The trace ends with that `os.Exit` call. -/
theorem autoStop_exit_code (env : StopEnv) (srv : Server) :
    (autoStop env srv).code =
      (if hasStarted srv then
        (if env.shutdown.isSome && env.close.isSome then 1 else 0)
      else -1) ∧
    (autoStop env srv).trace.getLast? = some (Event.exit (autoStop env srv).code) ∧
    (-1 : Int) ≠ 0 ∧ (1 : Int) ≠ 0 ∧ (-1 : Int) ≠ 1 ∧ (-1 : Int) % 256 ≠ 1 % 256 := by
  refine ⟨?_, ?_, by decide, by decide, by decide, by decide⟩
  · unfold autoStop
    cases hr : hasStarted srv <;> cases hs : env.shutdown <;> cases hc : env.close <;> simp
  · unfold autoStop
    cases hr : hasStarted srv <;> cases hs : env.shutdown <;> cases hc : env.close <;> simp

/-- C8. The calls of `autoStop` that stop the `http.Server` are: none when the
server is not running; exactly one `Shutdown` (with the five-second context)
when it is running and `Shutdown` succeeds; exactly one `Shutdown` followed by
exactly one `Close` when it is running and `Shutdown` returns an error. -/
theorem autoStop_stop_calls (env : StopEnv) (srv : Server) :
    stopCalls (autoStop env srv).trace =
      (if hasStarted srv then
        (if env.shutdown.isSome then [Event.shutdown 5, Event.close] else [Event.shutdown 5])
      else []) := by
  unfold autoStop
  cases hr : hasStarted srv <;> cases hs : env.shutdown <;> cases hc : env.close <;>
    simp [stopCalls, List.filter]

/-- C9. When the signal arrives while the server is running, the run flag is
clear when `autoStop` ends, whatever `Shutdown` and `Close` return: graceful
shutdown succeeded, graceful failed and forced close succeeded, both failed. -/
theorem autoStop_stops (env : StopEnv) (srv : Server) (h : hasStarted srv = true) :
    hasStarted (autoStop env srv).srv = false ∧ (autoStop env srv).srv = stop srv := by
  have hflag : srv.isRunning = true := h
  unfold autoStop
  cases hs : env.shutdown <;> cases hc : env.close <;> simp [hflag, hasStarted, stop]

/-- Witness of `autoStop_stops` on the three paths. -/
theorem autoStop_stops_witness :
    (hasStarted (autoStop ⟨.SIGINT, none, none⟩ runningServer).srv = false ∧
      (autoStop ⟨.SIGINT, none, none⟩ runningServer).srv = stop runningServer) ∧
    (hasStarted (autoStop ⟨.SIGTERM, some ⟨"context deadline exceeded"⟩, none⟩
        runningServer).srv = false ∧
      (autoStop ⟨.SIGTERM, some ⟨"context deadline exceeded"⟩, none⟩ runningServer).srv =
        stop runningServer) ∧
    (hasStarted (autoStop ⟨.SIGTERM, some ⟨"context deadline exceeded"⟩, some ⟨"close"⟩⟩
        runningServer).srv = false ∧
      (autoStop ⟨.SIGTERM, some ⟨"context deadline exceeded"⟩, some ⟨"close"⟩⟩
        runningServer).srv = stop runningServer) :=
  ⟨autoStop_stops ⟨.SIGINT, none, none⟩ runningServer (by decide),
   autoStop_stops ⟨.SIGTERM, some ⟨"context deadline exceeded"⟩, none⟩ runningServer
     (by decide),
   autoStop_stops ⟨.SIGTERM, some ⟨"context deadline exceeded"⟩, some ⟨"close"⟩⟩
     runningServer (by decide)⟩

/-- C10. The method `stop` is idempotent: a second `stop` changes nothing, the
run flag is clear after any `stop`, and any number of further `stop` calls
leaves the whole server as the first one left it. The method is total and has
no error result. -/
theorem stop_idempotent (srv : Server) :
    stop (stop srv) = stop srv ∧
    hasStarted (stop srv) = false ∧
    (∀ n : Nat, stop^[n] (stop srv) = stop srv) ∧
    (∀ n : Nat, hasStarted (stop^[n + 1] srv) = false) := by
  have h1 : stop (stop srv) = stop srv := rfl
  have h2 : ∀ n : Nat, stop^[n] (stop srv) = stop srv := by
    intro n
    induction n with
    | zero => rfl
    | succ k ih => rw [Function.iterate_succ_apply, h1, ih]
  refine ⟨h1, rfl, h2, ?_⟩
  intro n
  rw [Function.iterate_succ_apply, h2 n]
  rfl

/-! ## Theorems: sequences of operations, and `Handle` -/

/-- An operation that does not call `start` leaves a server with a clear run
flag exactly as it was. -/
theorem Op.apply_of_not_callsStart (pkg : Pkg) (srv : Server) (op : Op)
    (hop : op.callsStart = false) (hflag : hasStarted srv = false) :
    Op.apply pkg srv op = srv := by
  have hrun : srv.isRunning = false := hflag
  cases op with
  | callRun env => simp [Op.callsStart] at hop
  | callStart accepts => simp [Op.callsStart] at hop
  | callStop =>
    cases srv
    simp_all [Op.apply, stop]
  | callHandle r => rfl

/-- A sequence of operations none of which calls `start` leaves a server with
a clear run flag exactly as it was. -/
theorem applyOps_of_not_callsStart (pkg : Pkg) (ops : List Op) (srv : Server)
    (hops : ∀ op ∈ ops, op.callsStart = false) (hflag : hasStarted srv = false) :
    applyOps pkg ops srv = srv := by
  induction ops with
  | nil => rfl
  | cons op rest ih =>
    have hop := Op.apply_of_not_callsStart pkg srv op (hops op (by simp)) hflag
    have hrest := ih (fun o ho => hops o (by simp [ho]))
    simpa [applyOps, hop] using hrest

/-- Whatever the `select` takes, `Run` on a server with a clear run flag and an
accepted callback path returns the server with the flag set. -/
theorem Run_sets_flag (env : RunEnv) (srv : Server) (hflag : hasStarted srv = false)
    (hpath : env.accepts srv.path = true) :
    (Run env srv).srv = { srv with isRunning := true } := by
  have hs := start_of_accepts env.accepts srv hpath
  have hrun : srv.isRunning = false := hflag
  unfold Run
  simp only [hasStarted, hrun, hs]
  cases startupSelect env <;> simp

/-- C11 as stated fails. The server `runningServer` is Running and is stopped;
`Run` on the stopped server (the socket is bound, the `select` takes `startCh`)
returns nil and `hasStarted()` is true again. -/
theorem Run_restarts_stopped_server :
    hasStarted runningServer = true ∧
    hasStarted (stop runningServer) = false ∧
    (Run startupOk (stop runningServer)).ret = Ret.returned none ∧
    ¬ (hasStarted (applyOps samplePkg [Op.callRun startupOk] (stop runningServer)) = false) := by
  decide

/-- C11, amended. The run state is the boolean `isRunning`, so a stopped server
is a server that has not been started: stopping a server started from a clear
flag gives that server back. After a `stop`, every sequence of `stop` and
`Handle` calls leaves the server as it is, with `hasStarted()` false; the flag
becomes true only in an operation that calls `start`; and `start`, as well as
`Run`, does set it again on a stopped server whose callback path the mux
accepts. -/
theorem stopped_server_restarts (pkg : Pkg) (srv : Server) (ops : List Op)
    (hops : ∀ op ∈ ops, op.callsStart = false) :
    applyOps pkg ops (stop srv) = stop srv ∧
    hasStarted (applyOps pkg ops (stop srv)) = false ∧
    (∀ (op : Op) (s : Server), hasStarted s = false →
      hasStarted (Op.apply pkg s op) = true → op.callsStart = true) ∧
    (∀ accepts : String → Bool, accepts srv.path = true →
      hasStarted (Op.apply pkg (stop srv) (Op.callStart accepts)) = true) ∧
    (∀ env : RunEnv, env.accepts srv.path = true →
      hasStarted (Op.apply pkg (stop srv) (Op.callRun env)) = true) ∧
    (∀ (accepts : String → Bool) (srv1 : Server), hasStarted srv = false →
      start accepts srv = some srv1 → stop srv1 = srv) := by
  have hstopped : hasStarted (stop srv) = false := rfl
  have hkeep := applyOps_of_not_callsStart pkg ops (stop srv) hops hstopped
  refine ⟨hkeep, by rw [hkeep]; rfl, ?_, ?_, ?_, ?_⟩
  · intro op s hs hafter
    cases hcs : op.callsStart with
    | true => rfl
    | false =>
      rw [Op.apply_of_not_callsStart pkg s op hcs hs, hs] at hafter
      cases hafter
  · intro accepts hacc
    have hs := start_of_accepts accepts (stop srv) hacc
    simp [Op.apply, hs, hasStarted]
  · intro env hacc
    have hr := Run_sets_flag env (stop srv) hstopped hacc
    simp [Op.apply, hr, hasStarted]
  · intro accepts srv1 hflag hstart
    have hrun : srv.isRunning = false := hflag
    rw [start_eq accepts srv srv1 hstart]
    cases srv
    simp_all [stop]

/-- Witness of `stopped_server_restarts` on `runningServer`: a `stop` and two
`Handle` calls after the stop change nothing, `start` and `Run` set the flag. -/
theorem stopped_server_restarts_witness :
    applyOps samplePkg [Op.callStop, Op.callHandle otherRequest, Op.callHandle callbackRequest]
        (stop runningServer) = stop runningServer ∧
    hasStarted (applyOps samplePkg
        [Op.callStop, Op.callHandle otherRequest, Op.callHandle callbackRequest]
        (stop runningServer)) = false ∧
    hasStarted (Op.apply samplePkg (stop runningServer) (Op.callStart startupOk.accepts)) =
      true ∧
    hasStarted (Op.apply samplePkg (stop runningServer) (Op.callRun startupOk)) = true :=
  have hthm := stopped_server_restarts samplePkg runningServer
    [Op.callStop, Op.callHandle otherRequest, Op.callHandle callbackRequest]
    (by intro op hop; simp at hop; rcases hop with h | h | h <;> subst h <;> rfl)
  ⟨hthm.1, hthm.2.1, hthm.2.2.2.1 startupOk.accepts (by decide),
    hthm.2.2.2.2.1 startupOk (by decide)⟩

/-- C12. For every server, whatever its run flag, and every request, `Handle`
makes exactly one call of its own, `ServeHTTP` of the configured handler on that
request (what follows in the trace is what the default dispatcher does, for any
behaviour of `Callback`), returns a nil error and returns the server with the
run flag and every other field unchanged. -/
theorem Handle_frame (pkg : Pkg) (srv : Server) (r : Request) :
    (Handle pkg srv r).2.1 =
      Event.serveHTTP srv.server.Handler r ::
        (match srv.server.Handler with
         | Handler.custom _ => []
         | Handler.callback dh => pkg.Callback dh r) ∧
    (Handle pkg srv r).2.2 = none ∧
    (Handle pkg srv r).1 = srv ∧
    hasStarted (Handle pkg srv r).1 = hasStarted srv ∧
    (Handle pkg srv r).1.server = srv.server ∧
    (Handle pkg srv r).1.path = srv.path ∧
    (Handle pkg srv r).1.logger = srv.logger := by
  refine ⟨?_, rfl, rfl, rfl, rfl, rfl, rfl⟩
  simp only [Handle, ServeHTTP]
  cases srv.server.Handler <;> rfl

end callback

namespace push

/-! ## Theorems: `GetCidForPush` -/

/-- The count that `GetCidForPush` sends is the larger of `count` and 1. -/
theorem clamp_eq_max (count : Int) : (if count < 1 then 1 else count) = max count 1 := by
  split_ifs with h
  · exact (max_eq_right (le_of_lt h)).symm
  · exact (max_eq_left (not_lt.mp h)).symm

/-- On a non-negative integer `Itoa` is the decimal form of the natural number. -/
theorem Itoa_of_nonneg (n : Int) (h : 0 ≤ n) : Itoa n = Nat.repr n.toNat := by
  cases n with
  | ofNat m => rfl
  | negSucc m => exact absurd h (by simp)

/-- The requests of a call on a non-nil receiver: one request, whatever the
client and the decoder answer. -/
theorem requests_of_GetCidForPush (env : Env) (p : apiv3) (count : Int) :
    (GetCidForPush env (some p) count).requests =
      [{ Method := MethodGet
         Proto := p.proto
         URL := p.host ++ "/v3/push/cid?type=push&count=" ++
           Itoa (if count < 1 then 1 else count)
         Auth := p.auth }] := by
  simp only [GetCidForPush]
  cases hreq : env.request
      { Method := MethodGet
        Proto := p.proto
        URL := p.host ++ "/v3/push/cid?type=push&count=" ++
          Itoa (if count < 1 then 1 else count)
        Auth := p.auth } with
  | error err => rfl
  | ok resp =>
    simp only []
    cases hdec : env.unmarshal resp.RawBody { Response := resp, decoded := "" } with
    | mk result err =>
      cases err <;> rfl

/-- C13. On a non-nil receiver and for every integer `count`, `GetCidForPush`
hands the client exactly one request: a GET whose URL is the host followed by
`/v3/push/cid?type=push&count=` and the decimal form of `max count 1` (which is
1 when `count < 1` and `count` otherwise), with the protocol and credentials of
the receiver. On a nil receiver it returns no result and
`ErrNilJPushPushAPIv3` and hands the client no request. -/
theorem GetCidForPush_request (env : Env) (p : apiv3) (count : Int) :
    (GetCidForPush env (some p) count).requests =
      [{ Method := "GET"
         Proto := p.proto
         URL := p.host ++ "/v3/push/cid?type=push&count=" ++ Itoa (max count 1)
         Auth := p.auth }] ∧
    max count 1 = (if count < 1 then 1 else count) ∧
    Itoa (max count 1) = Nat.repr (max count 1).toNat ∧
    (GetCidForPush env none count).result = none ∧
    (GetCidForPush env none count).err = some env.ErrNilJPushPushAPIv3 ∧
    (GetCidForPush env none count).requests = [] := by
  refine ⟨?_, (clamp_eq_max count).symm, ?_, rfl, rfl, rfl⟩
  · rw [requests_of_GetCidForPush, clamp_eq_max]
    rfl
  · exact Itoa_of_nonneg _ (le_trans (by decide) (le_max_right count 1))

end push

namespace schedule

/-! ## Theorems: `MarshalJSON` and `UnmarshalJSON` of `ScheduleGetResult` -/

/-- Without an error and with a schedule, what `UnmarshalJSON` reads back from
the output of `MarshalJSON` is the embedded detail with an empty task id. -/
theorem roundtrip_resets_ScheduleID (rs r0 : ScheduleGetResult) (s : Schedule)
    (herr : rs.Error = none) (hs : rs.Schedule = some s) :
    (MarshalJSON rs).map (fun data => UnmarshalJSON r0 data) =
      some (.ok { r0 with
        Schedule := some { ScheduleID := "", scheduleDetail := s.scheduleDetail } }) := by
  obtain ⟨id, ⟨cid, name, enabled, trigger, push⟩⟩ := s
  simp only [MarshalJSON, herr, hs, Option.map_some', marshalSendParam]
  by_cases hcid : cid = "" <;> cases trigger <;> cases push <;>
    simp [hcid, UnmarshalJSON, unmarshalSchedule, lookup, unmarshalString, unmarshalBool,
      unmarshalPointer, marshalPointer, bind, Except.bind, pure, Except.pure, List.find?]

/-- C14 fails on the code. For `sampleResult` (nil `Error`, the schedule
`sampleSchedule` with a non-empty task id) `MarshalJSON` writes the keys `cid`,
`name`, `enabled`, `trigger` and `push` and no `schedule_id`; `UnmarshalJSON` on
that output succeeds with a schedule whose `ScheduleID` is empty, which is not
`sampleSchedule`. -/
theorem MarshalJSON_drops_ScheduleID :
    sampleResult.Error = none ∧
    sampleResult.Schedule = some sampleSchedule ∧
    MarshalJSON sampleResult =
      some [("cid", Value.str "7103a4c428a0b98974ec1849-711161d4"),
            ("name", Value.str "nightly"),
            ("enabled", Value.bool true),
            ("trigger", Value.object "\x7b\x7d"),
            ("push", Value.null)] ∧
    (MarshalJSON sampleResult).map (fun data => lookup data "schedule_id") = some none ∧
    (MarshalJSON sampleResult).map (fun data => UnmarshalJSON zeroResult data) =
      some (.ok { zeroResult with
        Schedule := some { sampleSchedule with ScheduleID := "" } }) ∧
    (some { sampleSchedule with ScheduleID := "" } : Option Schedule) ≠
      sampleResult.Schedule := by
  refine ⟨rfl, rfl, by decide, by decide, rfl, by decide⟩

end schedule
